import Mathlib

/- Shallow embedding of the session-generator program (src/tg2.py).
   Pure functions model the Python handlers; the SQLite tables are modelled as
   lists kept in insertion order with a monotone counter standing in for the
   CURRENT_TIMESTAMP columns; outbound Telegram calls and Telethon provider
   calls are recorded as an explicit effect trace. -/

set_option maxRecDepth 8192

namespace Tg2

/- ===== Python string primitives ===== -/

/-- Python whitespace characters recognised by str.strip(). -/
def isPySpace (c : Char) : Bool :=
  decide (c = ' ') || decide (c = '\t') || decide (c = '\n') || decide (c = '\r') ||
  decide (c.toNat = 11) || decide (c.toNat = 12)

def stripChars (l : List Char) : List Char :=
  ((l.dropWhile isPySpace).reverse.dropWhile isPySpace).reverse

/-- Model of Python str.strip(). -/
def pyStrip (s : String) : String := ⟨stripChars s.data⟩

/-- Model of Python s.replace(' ', ''). -/
def removeSpaces (s : String) : String := ⟨s.data.filter (fun c => decide (c ≠ ' '))⟩

/-- Model of Python s.replace('-', ''). -/
def removeDashes (s : String) : String := ⟨s.data.filter (fun c => decide (c ≠ '-'))⟩

/-- Model of Python str.isdigit(): nonempty and all characters are digits. -/
def isdigitStr (s : String) : Bool := (!s.data.isEmpty) && s.data.all Char.isDigit

/-- Model of Python s[1:]. -/
def strTail (s : String) : String := ⟨s.data.drop 1⟩

/-- Model of Python s.startswith('+'). -/
def strHeadIsPlus (s : String) : Bool := decide (s.data.head? = some '+')

def listBeginsWith : List Char → List Char → Bool
  | [], _ => true
  | _ :: _, [] => false
  | p :: ps, c :: cs => decide (p = c) && listBeginsWith ps cs

def replaceFuel (pat rep : List Char) : Nat → List Char → List Char
  | 0, l => l
  | fuel + 1, l =>
    match l with
    | [] => []
    | c :: cs =>
      if listBeginsWith pat l then rep ++ replaceFuel pat rep fuel (l.drop pat.length)
      else c :: replaceFuel pat rep fuel cs

/-- Model of Python s.replace(pat, rep): left-to-right, non-overlapping. -/
def pyReplace (s pat rep : String) : String :=
  if pat.data.isEmpty then s
  else ⟨replaceFuel pat.data rep.data (s.data.length + 1) s.data⟩

def natOfDigits (l : List Char) : Nat :=
  l.foldl (fun a c => a * 10 + (c.toNat - 48)) 0

/-- Model of Python int(s): optional sign, then a nonempty digit string,
    surrounding whitespace stripped; None models the ValueError path. -/
def pyParseInt (s : String) : Option Int :=
  match stripChars s.data with
  | '+' :: rest =>
      if !rest.isEmpty && rest.all Char.isDigit then some (natOfDigits rest) else none
  | '-' :: rest =>
      if !rest.isEmpty && rest.all Char.isDigit then some (-(natOfDigits rest : Int)) else none
  | l => if !l.isEmpty && l.all Char.isDigit then some (natOfDigits l) else none

/- ===== Data model (the two SQLite tables of tg2.py) ===== -/

/-- The fixed privileged recipient (MAIN_ADMIN_ID in tg2.py). -/
def MAIN_ADMIN_ID : Int := 7325746010

structure AdminRecord where
  user_id : Int
  username : Option String
  first_name : Option String
  added_by : Option Int
  date_added : Nat
deriving DecidableEq

structure SessionRecord where
  id : Nat
  session_string : String
  phone_number : String
  account_name : Option String
  created_by : Int
  date_created : Nat
deriving DecidableEq

/-- One row of the projection SELECTed by DatabaseManager.get_sessions:
    phone_number, account_name, date_created (no session_string column). -/
structure SessionRow where
  phone : String
  name : Option String
  date : Nat
deriving DecidableEq

/-- The database: admins kept in date_added order, sessions in insertion order
    with date_created strictly increasing; adminClock stands in for the wall
    clock of the admins table. -/
structure Db where
  admins : List AdminRecord
  sessions : List SessionRecord
  adminClock : Nat
deriving DecidableEq

def emptyDb : Db := { admins := [], sessions := [], adminClock := 0 }

/- ===== DatabaseManager operations ===== -/

def is_admin (db : Db) (user_id : Int) : Bool :=
  db.admins.any (fun a => decide (a.user_id = user_id))

/-- INSERT OR REPLACE INTO admins: drop any record with the same key, append a
    fresh one (its date_added becomes the latest). Returns the bool the Python
    method returns on the non-exception path. -/
def add_admin (db : Db) (user_id : Int) (username first_name : Option String)
    (added_by : Option Int) : Db × Bool :=
  let remaining := db.admins.filter (fun a => decide (a.user_id ≠ user_id))
  ({ db with
      admins := remaining ++ [⟨user_id, username, first_name, added_by, db.adminClock⟩],
      adminClock := db.adminClock + 1 }, true)

/-- DELETE FROM admins WHERE user_id = ? AND user_id != MAIN_ADMIN_ID;
    returns cursor.rowcount > 0. -/
def remove_admin (db : Db) (user_id : Int) : Db × Bool :=
  let touched := db.admins.filter (fun a => decide (a.user_id = user_id ∧ user_id ≠ MAIN_ADMIN_ID))
  let remaining := db.admins.filter (fun a => !(decide (a.user_id = user_id ∧ user_id ≠ MAIN_ADMIN_ID)))
  ({ db with admins := remaining }, decide (touched.length > 0))

/-- SELECT ... FROM admins ORDER BY date_added: the list is maintained in
    date_added order, so this is the list itself. -/
def get_admins (db : Db) : List AdminRecord := db.admins

/-- INSERT INTO sessions; the ok flag models whether the statement raises (the
    except branch returns False with the database unchanged). -/
def save_session (db : Db) (ok : Bool) (session_string phone_number : String)
    (account_name : Option String) (created_by : Int) : Db × Bool :=
  if ok then
    ({ db with
        sessions := db.sessions ++
          [⟨db.sessions.length + 1, session_string, phone_number, account_name,
            created_by, db.sessions.length⟩] }, true)
  else (db, false)

def projRow (r : SessionRecord) : SessionRow := ⟨r.phone_number, r.account_name, r.date_created⟩

/-- The unfiltered query of get_sessions (its else branch):
    ORDER BY date_created DESC over an ascending list is its reverse. -/
def get_sessions_all (db : Db) : List SessionRow :=
  (db.sessions.reverse).map projRow

/-- DatabaseManager.get_sessions: Python tests `if created_by:`, so the creator
    filter is applied only when created_by is truthy (nonzero). -/
def get_sessions (db : Db) (created_by : Int) : List SessionRow :=
  if created_by ≠ 0 then
    ((db.sessions.filter (fun r => decide (r.created_by = created_by))).reverse).map projRow
  else get_sessions_all db

/-- init_database: INSERT OR IGNORE the main admin record. -/
def init_database (db : Db) : Db :=
  if is_admin db MAIN_ADMIN_ID then db
  else { db with
          admins := db.admins ++
            [⟨MAIN_ADMIN_ID, some "main_admin", some "Main Admin", some MAIN_ADMIN_ID, db.adminClock⟩],
          adminClock := db.adminClock + 1 }

def bootDb : Db := init_database emptyDb

def rootRec : AdminRecord :=
  ⟨MAIN_ADMIN_ID, some "main_admin", some "Main Admin", some MAIN_ADMIN_ID, 0⟩

/- ===== Conversation state (context.user_data flags of tg2.py) ===== -/

/-- The per-user flags and temporaries tg2.py keeps in context.user_data; a
    provider client handle is identified by a Nat. -/
structure UserData where
  expecting_phone : Bool := false
  expecting_code : Bool := false
  expecting_2fa : Bool := false
  expecting_admin_id : Bool := false
  temp_client : Option Nat := none
  phone : Option String := none
deriving DecidableEq

def udStart : UserData := {}

/-- Forwarded-identity metadata the transport may attach to a text message. -/
structure ForwardInfo where
  id : Int
  username : Option String
  first_name : Option String
deriving DecidableEq

/- ===== Outbound messages and effects ===== -/

/-- The outbound message shapes of tg2.py, one constructor per format string,
    carrying exactly the interpolated values. -/
inductive MsgText
  | welcome (isMainAdmin : Bool)
  | chooseOption
  | phonePrompt
  | invalidPhone
  | connecting
  | smsCodeSent
  | errorSendingCode
  | sessionExpired
  | authenticating
  | verifying2fa
  | authFailed
  | invalidCodeFormat
  | invalidCodeRetry
  | twoFAPrompt
  | invalid2FA
  | noSessions
  | sessionsList (rows : List SessionRow)
  | sessionSuccess (accountName phone payload : String)
  | saveFailed
  | backupAlert (accountName phone : String) (requesterName : Option String)
      (requesterId : Int) (timestamp : Nat) (payload : String)
  | selfBackup (accountName phone : String) (timestamp : Nat) (payload : String)
  | addAdminPrompt
  | noRemovableAdmins
  | removeAdminList (ids : List Int)
  | adminRemovedOk (id : Int)
  | adminRemoveFailed
  | invalidUserId
  | couldNotExtract
  | alreadyAdmin
  | adminAdded (id : Int) (first_name username : Option String)
deriving DecidableEq

/-- The observable actions of a handler run: outbound Telegram sends (reply,
    edit, send_message all carry a chat id and a message), callback-query
    acknowledgement, provider-client calls, and log-only events. -/
inductive Effect
  | answerCQ
  | send (chat : Int) (msg : MsgText)
  | connect (cid : Nat)
  | codeRequest (cid : Nat) (phone : String)
  | signInCode (cid : Nat) (phone code : String)
  | signInPassword (cid : Nat)
  | getMe (cid : Nat)
  | disconnect (cid : Nat)
  | logOnly
deriving DecidableEq

def Effect.isSend : Effect → Bool
  | .send _ _ => true
  | _ => false

/-- The outbound message events of a trace (the spec's outbound events). -/
def sends (tr : List Effect) : List Effect := tr.filter Effect.isSend

def Effect.isProviderCall : Effect → Bool
  | .connect _ => true
  | .codeRequest _ _ => true
  | .signInCode _ _ _ => true
  | .signInPassword _ => true
  | .getMe _ => true
  | _ => false

def providerCalls (tr : List Effect) : List Effect := tr.filter Effect.isProviderCall

def MsgText.isRelayMsg : MsgText → Bool
  | .backupAlert _ _ _ _ _ _ => true
  | .selfBackup _ _ _ _ => true
  | _ => false

def Effect.isRelaySend : Effect → Bool
  | .send _ m => m.isRelayMsg
  | _ => false

/-- The backup-relay sends of a trace. -/
def relaySends (tr : List Effect) : List Effect := tr.filter Effect.isRelaySend

def Effect.isSendToMainAdmin : Effect → Bool
  | .send chat _ => decide (chat = MAIN_ADMIN_ID)
  | _ => false

def MsgText.mentionsPayload (p : String) : MsgText → Bool
  | .sessionSuccess _ _ pl => decide (pl = p)
  | .backupAlert _ _ _ _ _ pl => decide (pl = p)
  | .selfBackup _ _ _ pl => decide (pl = p)
  | _ => false

def Effect.mentionsPayload (p : String) : Effect → Bool
  | .send _ m => m.mentionsPayload p
  | _ => false

/- ===== Provider / environment oracle ===== -/

inductive SignInRes
  | ok
  | passwordNeeded
  | codeInvalid
  | fault
deriving DecidableEq

inductive PwRes
  | ok
  | pwInvalid
  | fault
deriving DecidableEq

/-- One handler invocation's external world: the fresh client id, the outcomes
    of the provider round-trips, the artifact and account data the provider
    returns, and whether storage / the backup send succeed. -/
structure Env where
  cid : Nat
  sendCodeOk : Bool
  signInRes : SignInRes
  authorized : Bool
  pwRes : PwRes
  sessionString : String
  meFirst : Option String
  meLast : Option String
  meUser : Option String
  saveOk : Bool
  backupOk : Bool
  msgDate : Nat
  reqFirstName : Option String
deriving DecidableEq

/-- Account label computed in complete_session_generation from get_me. -/
def accountName (f l u : Option String) : String :=
  let s := pyStrip ((f.getD "") ++ " " ++ (l.getD ""))
  if s = "" then u.getD "Unknown" else s

/- ===== Handlers (SessionGeneratorBot methods) ===== -/

/-- SessionGeneratorBot.complete_session_generation: read the artifact from the
    client, get_me, disconnect, pop temp_client, save; only on a successful save
    show the artifact to the requester and run the backup relay; on a failed
    save only report the failure. -/
def complete_session_generation (env : Env) (db : Db) (ud : UserData) (uid : Int)
    (cid : Nat) (ph : String) : List Effect × UserData × Db :=
  let sstr := env.sessionString
  let name := accountName env.meFirst env.meLast env.meUser
  let eff0 : List Effect := [Effect.getMe cid, Effect.disconnect cid]
  let ud1 := { ud with temp_client := none }
  let res := save_session db env.saveOk sstr ph (some name) uid
  if res.2 then
    let eff1 : List Effect := [Effect.send uid (.sessionSuccess name ph sstr)]
    let relay : List Effect :=
      if uid ≠ MAIN_ADMIN_ID then
        if env.backupOk then
          [Effect.send MAIN_ADMIN_ID (.backupAlert name ph env.reqFirstName uid env.msgDate sstr)]
        else [Effect.logOnly]
      else
        if env.backupOk then
          [Effect.send MAIN_ADMIN_ID (.selfBackup name ph env.msgDate sstr)]
        else [Effect.logOnly]
    (eff0 ++ eff1 ++ relay, ud1, res.1)
  else
    (eff0 ++ [Effect.send uid .saveFailed], ud1, res.1)

/-- SessionGeneratorBot.process_phone_input: clear expecting_phone, strip the
    input, validate (startswith '+' and, after removing spaces only, digits),
    on valid input connect a fresh client and request the code; the client is
    stored in user_data only after send_code_request succeeds. -/
def process_phone_input (env : Env) (db : Db) (ud : UserData) (uid : Int)
    (raw : String) : List Effect × UserData × Db :=
  let ud1 := { ud with expecting_phone := false }
  let ph := pyStrip raw
  if !(strHeadIsPlus ph && isdigitStr (removeSpaces (strTail ph))) then
    ([Effect.send uid .invalidPhone], ud1, db)
  else
    let cleaned := removeDashes (removeSpaces ph)
    let eff0 : List Effect :=
      [Effect.send uid .connecting, Effect.connect env.cid, Effect.codeRequest env.cid cleaned]
    if env.sendCodeOk then
      (eff0 ++ [Effect.send uid .smsCodeSent],
       { ud1 with temp_client := some env.cid, phone := some cleaned, expecting_code := true }, db)
    else
      (eff0 ++ [Effect.send uid .errorSendingCode], ud1, db)

/-- SessionGeneratorBot.process_code_input: clear expecting_code, normalise the
    code (replace spaces then strip), reprompt and restore expecting_code on a
    non-digit code, otherwise sign in with the stored client and phone. -/
def process_code_input (env : Env) (db : Db) (ud : UserData) (uid : Int)
    (raw : String) : List Effect × UserData × Db :=
  let ud1 := { ud with expecting_code := false }
  let code := pyStrip (removeSpaces raw)
  if !(isdigitStr code) then
    ([Effect.send uid .invalidCodeFormat], { ud1 with expecting_code := true }, db)
  else
    match ud.temp_client, ud.phone with
    | some cid, some ph =>
      let eff0 : List Effect := [Effect.send uid .authenticating, Effect.signInCode cid ph code]
      match env.signInRes with
      | .ok =>
        if env.authorized then
          let r := complete_session_generation env db ud1 uid cid ph
          (eff0 ++ r.1, r.2.1, r.2.2)
        else (eff0 ++ [Effect.send uid .authFailed], ud1, db)
      | .passwordNeeded =>
        (eff0 ++ [Effect.send uid .twoFAPrompt], { ud1 with expecting_2fa := true }, db)
      | .codeInvalid =>
        (eff0 ++ [Effect.send uid .invalidCodeRetry], { ud1 with expecting_code := true }, db)
      | .fault => (eff0 ++ [Effect.logOnly], ud1, db)
    | _, _ => ([Effect.send uid .sessionExpired], ud1, db)

/-- SessionGeneratorBot.process_2fa_input. -/
def process_2fa_input (env : Env) (db : Db) (ud : UserData) (uid : Int)
    (_password : String) : List Effect × UserData × Db :=
  let ud1 := { ud with expecting_2fa := false }
  match ud.temp_client, ud.phone with
  | some cid, some ph =>
    let eff0 : List Effect := [Effect.send uid .verifying2fa, Effect.signInPassword cid]
    match env.pwRes with
    | .ok =>
      if env.authorized then
        let r := complete_session_generation env db ud1 uid cid ph
        (eff0 ++ r.1, r.2.1, r.2.2)
      else (eff0 ++ [Effect.send uid .authFailed], ud1, db)
    | .pwInvalid =>
      (eff0 ++ [Effect.send uid .invalid2FA], { ud1 with expecting_2fa := true }, db)
    | .fault => (eff0 ++ [Effect.logOnly], ud1, db)
  | _, _ => ([Effect.send uid .sessionExpired], ud1, db)

/-- SessionGeneratorBot.process_admin_id_input: extract an identity from the
    forwarded metadata or by parsing the text; reject unparsable input and the
    falsy id 0; reject existing admins; otherwise add_admin. -/
def process_admin_id_input (db : Db) (ud : UserData) (uid : Int)
    (text : String) (fwd : Option ForwardInfo) : List Effect × UserData × Db :=
  let ud1 := { ud with expecting_admin_id := false }
  match fwd with
  | some f =>
    if f.id = 0 then ([Effect.send uid .couldNotExtract], ud1, db)
    else if is_admin db f.id then ([Effect.send uid .alreadyAdmin], ud1, db)
    else
      let r := add_admin db f.id f.username f.first_name (some uid)
      ([Effect.send uid (.adminAdded f.id f.first_name f.username)], ud1, r.1)
  | none =>
    match pyParseInt (pyStrip text) with
    | none => ([Effect.send uid .invalidUserId], ud1, db)
    | some n =>
      if n = 0 then ([Effect.send uid .couldNotExtract], ud1, db)
      else if is_admin db n then ([Effect.send uid .alreadyAdmin], ud1, db)
      else
        let r := add_admin db n none none (some uid)
        ([Effect.send uid (.adminAdded n none none)], ud1, r.1)

/-- SessionGeneratorBot.start_command: silently ignore non-admins, otherwise
    send the welcome panel. -/
def start_command (db : Db) (ud : UserData) (uid : Int) : List Effect × UserData :=
  if is_admin db uid then
    ([Effect.send uid (.welcome (decide (uid = MAIN_ADMIN_ID)))], ud)
  else ([], ud)

/-- SessionGeneratorBot.button_callback: answer the callback query, silently
    drop non-admins, then dispatch on the callback data; the remove_admin_<id>
    branch carries no root-principal guard in the source. -/
def button_callback (_env : Env) (db : Db) (ud : UserData) (uid : Int)
    (data : String) : List Effect × UserData × Db :=
  let ans : List Effect := [Effect.answerCQ]
  if !(is_admin db uid) then (ans, ud, db)
  else if data = "generate_session" then
    (ans ++ [Effect.send uid .phonePrompt], { ud with expecting_phone := true }, db)
  else if data = "list_sessions" then
    let rows := get_sessions db uid
    (ans ++ [Effect.send uid (if rows.isEmpty then .noSessions else .sessionsList rows)], ud, db)
  else if data = "add_admin" ∧ uid = MAIN_ADMIN_ID then
    (ans ++ [Effect.send uid .addAdminPrompt], { ud with expecting_admin_id := true }, db)
  else if data = "remove_admin" ∧ uid = MAIN_ADMIN_ID then
    let removable := db.admins.filter (fun a => decide (a.user_id ≠ MAIN_ADMIN_ID))
    (ans ++ [Effect.send uid
        (if removable.isEmpty then .noRemovableAdmins
         else .removeAdminList (removable.map (fun a => a.user_id)))], ud, db)
  else if listBeginsWith "remove_admin_".data data.data then
    match pyParseInt (pyReplace data "remove_admin_" "") with
    | some admin_id =>
      let r := remove_admin db admin_id
      (ans ++ [Effect.send uid (if r.2 then .adminRemovedOk admin_id else .adminRemoveFailed)],
       ud, r.1)
    | none => (ans ++ [Effect.logOnly], ud, db)
  else if data = "back_to_main" then
    (ans ++ [Effect.send uid .chooseOption], ud, db)
  else (ans, ud, db)

/-- SessionGeneratorBot.handle_message: silently drop non-admins, then dispatch
    on the expecting_* flags in source order. -/
def handle_message (env : Env) (db : Db) (ud : UserData) (uid : Int)
    (text : String) (fwd : Option ForwardInfo) : List Effect × UserData × Db :=
  if !(is_admin db uid) then ([], ud, db)
  else if ud.expecting_phone then process_phone_input env db ud uid text
  else if ud.expecting_code then process_code_input env db ud uid text
  else if ud.expecting_2fa then process_2fa_input env db ud uid text
  else if ud.expecting_admin_id then process_admin_id_input db ud uid text fwd
  else ([], ud, db)

/- ===== Concrete scenario data ===== -/

/-- A fully successful environment: provider calls succeed, storage and the
    backup send succeed. -/
def envOk : Env :=
  { cid := 0, sendCodeOk := true, signInRes := .ok, authorized := true, pwRes := .ok,
    sessionString := "SESSIONSTR", meFirst := some "Alice", meLast := none, meUser := none,
    saveOk := true, backupOk := true, msgDate := 5, reqFirstName := some "Alice" }

/-- Same environment but ArtifactStore.save fails. -/
def envSaveFail : Env := { envOk with saveOk := false }

/-- Database with the root admin plus ordinary admin 111. -/
def dbA : Db := (add_admin bootDb 111 none none (some MAIN_ADMIN_ID)).1

/-- Database with the root admin plus ordinary admins 111 and 222. -/
def dbB : Db := (add_admin dbA 222 none none (some MAIN_ADMIN_ID)).1

/- ===== Claim C1 ===== -/

def c1_s1 := button_callback envOk dbA udStart 111 "generate_session"
def c1_s2 := handle_message envOk dbA c1_s1.2.1 111 "+15551234567" none
def c1_s3 := button_callback envOk dbA c1_s2.2.1 111 "back_to_main"

/-- Claim C1: the claim says a cancellation ("back to main") event closes any
    open ProviderSession handle and moves the principal to Idle, and that any
    state reaching Idle has close called exactly once per start. Evaluating the
    code at the failing input: admin 111 starts session generation, submits a
    valid phone (client 0 is connected and stored), then presses the
    back-to-main cancel button; the button handler leaves user_data untouched
    (expecting_code stays true, temp_client stays set) and no disconnect is
    ever issued for client 0. -/
theorem c1_cancel_leaves_handle_open :
    Effect.connect 0 ∈ c1_s2.1
    ∧ c1_s2.2.1.temp_client = some 0
    ∧ c1_s2.2.1.expecting_code = true
    ∧ c1_s3.2.1 = c1_s2.2.1
    ∧ Effect.disconnect 0 ∉ c1_s1.1 ++ c1_s2.1 ++ c1_s3.1 := by decide

/- ===== Claim C2 ===== -/

def c2_run := complete_session_generation envSaveFail emptyDb udStart 111 0 "+15551234567"

/-- Claim C2 counterexample: with ArtifactStore.save failing, the completed
    generation (artifact payload "SESSIONSTR") emits exactly one outbound
    message, the failed-save report, and no outbound message carries the
    payload: display of the secret IS conditioned on successful persistence. -/
theorem c2_save_fail_hides_artifact_cex :
    c2_run.1.all (fun e => !(e.mentionsPayload "SESSIONSTR")) = true
    ∧ sends c2_run.1 = [Effect.send 111 .saveFailed] := by decide

/-- Claim C2 (amended): when ArtifactStore.save fails, the engine reports only
    the failed save and does not show the artifact payload; the payload is
    shown to the requester exactly on the successful-save branch. -/
theorem c2_display_conditioned_on_save (env : Env) (db : Db) (ud : UserData)
    (uid : Int) (cid : Nat) (ph : String) :
    (env.saveOk = false →
      sends (complete_session_generation env db ud uid cid ph).1
        = [Effect.send uid .saveFailed])
    ∧ (env.saveOk = true →
      Effect.send uid
          (.sessionSuccess (accountName env.meFirst env.meLast env.meUser) ph env.sessionString)
        ∈ (complete_session_generation env db ud uid cid ph).1) := by
  constructor
  · intro h
    simp [complete_session_generation, save_session, h, sends, Effect.isSend]
  · intro h
    by_cases hm : uid = MAIN_ADMIN_ID <;> by_cases hb : env.backupOk <;>
      simp [complete_session_generation, save_session, h, hm, hb]

/-- Claim C2 witness. -/
theorem c2_display_conditioned_on_save_w :
    sends (complete_session_generation envSaveFail emptyDb udStart 111 0 "+15551234567").1
      = [Effect.send 111 .saveFailed] :=
  (c2_display_conditioned_on_save envSaveFail emptyDb udStart 111 0 "+15551234567").1 rfl

/- ===== Claim C3 ===== -/

def c3_run := button_callback envOk dbB udStart 111 "remove_admin_222"

/-- Claim C3: the claim says only the root principal can add or remove admin
    records. Evaluating the code at the failing input: ordinary admin 111
    (not the root) sends the button event "remove_admin_222"; the branch for
    committing a removal selection carries no root check, so admin 222's
    record is deleted and the removal is confirmed to 111. -/
theorem c3_nonroot_removes_admin :
    (111 : Int) ≠ MAIN_ADMIN_ID
    ∧ is_admin dbB 111 = true
    ∧ is_admin dbB 222 = true
    ∧ is_admin c3_run.2.2 222 = false
    ∧ Effect.send 111 (.adminRemovedOk 222) ∈ c3_run.1 := by decide

/- ===== Claim C4 ===== -/

/-- Claim C4: for every principal absent from the AuthorizationStore, each
    entry point (start command, button press, text message) produces no
    outbound message event; the button handler only acknowledges the callback
    query, which carries no text. -/
theorem c4_nonadmin_silent (db : Db) (ud : UserData) (uid : Int) (env : Env)
    (data text : String) (fwd : Option ForwardInfo)
    (h : is_admin db uid = false) :
    sends (start_command db ud uid).1 = []
    ∧ sends (button_callback env db ud uid data).1 = []
    ∧ sends (handle_message env db ud uid text fwd).1 = [] := by
  refine ⟨?_, ?_, ?_⟩ <;>
    simp [start_command, button_callback, handle_message, h, sends, Effect.isSend]

/-- Claim C4 witness. -/
theorem c4_nonadmin_silent_w :
    sends (start_command bootDb udStart 999).1 = []
    ∧ sends (button_callback envOk bootDb udStart 999 "generate_session").1 = []
    ∧ sends (handle_message envOk bootDb udStart 999 "+15551234567" none).1 = [] :=
  c4_nonadmin_silent bootDb udStart 999 envOk "generate_session" "+15551234567" none (by decide)

/- ===== Claim C5 ===== -/

def c5_r1 := handle_message envOk dbA { udStart with expecting_phone := true } 111 "1234567890" none
def c5_r2 := handle_message envOk dbA c5_r1.2.1 111 "+15551234567" none

/-- Claim C5: the claim says an invalid phone reprompts and keeps the admin in
    AwaitingPhone. Evaluating the code at the failing input: admin 111 in
    AwaitingPhone sends "1234567890"; the reprompt is sent and no provider call
    is made, but expecting_phone is cleared and never restored, so the state
    equals the idle state and a subsequent valid phone message is silently
    ignored instead of being treated as phone input. -/
theorem c5_invalid_phone_drops_state :
    c5_r1.1 = [Effect.send 111 .invalidPhone]
    ∧ providerCalls c5_r1.1 = []
    ∧ c5_r1.2.1 = udStart
    ∧ c5_r2.1 = []
    ∧ c5_r2.2.1 = udStart := by decide

/- ===== Claim C6 ===== -/

/-- Claim C6: remove_admin returns false whenever the given principal is the
    root principal or has no record in the store, and every record of the root
    principal survives any remove_admin call, so the root principal still
    appears in the admin listing. -/
theorem c6_root_never_removed (db : Db) (uid : Int) :
    ((uid = MAIN_ADMIN_ID ∨ ∀ a ∈ db.admins, a.user_id ≠ uid) →
      (remove_admin db uid).2 = false)
    ∧ ∀ a ∈ db.admins, a.user_id = MAIN_ADMIN_ID →
        a ∈ get_admins (remove_admin db uid).1 := by
  constructor
  · intro h
    simp only [remove_admin, decide_eq_false_iff_not, gt_iff_lt,
      List.length_pos, ne_eq, List.filter_eq_nil_iff, decide_eq_true_eq, not_and, not_not]
    intro a ha hau
    rcases h with h | h
    · exact h
    · exact absurd hau (h a ha)
  · intro a ha hm
    simp only [remove_admin, get_admins, List.mem_filter]
    refine ⟨ha, ?_⟩
    simp only [Bool.not_eq_true', decide_eq_false_iff_not]
    rintro ⟨h1, h2⟩
    exact h2 (h1.symm.trans hm)

/-- Claim C6 witness. -/
theorem c6_root_never_removed_w :
    (remove_admin bootDb MAIN_ADMIN_ID).2 = false
    ∧ rootRec ∈ get_admins (remove_admin bootDb MAIN_ADMIN_ID).1 :=
  ⟨(c6_root_never_removed bootDb MAIN_ADMIN_ID).1 (Or.inl rfl),
   (c6_root_never_removed bootDb MAIN_ADMIN_ID).2 rootRec (by decide) (by decide)⟩

/- ===== Claim C7 ===== -/

/-- Modelled from the spec claim: a phone number is accepted when it starts
    with a sign character and, after removing interior spaces and dashes, the
    rest consists only of digits. -/
def specPhoneAccepted (raw : String) : Bool :=
  strHeadIsPlus (pyStrip raw)
    && isdigitStr (removeDashes (removeSpaces (strTail (pyStrip raw))))

/-- Claim C7 counterexample: "+123-4567" satisfies the claim's acceptance
    condition (sign character, then digits once spaces and dashes are
    removed), but the code rejects it with the invalid-phone reprompt and
    makes no provider call: validation removes only spaces, not dashes. -/
theorem c7_dash_phone_rejected_cex :
    specPhoneAccepted "+123-4567" = true
    ∧ (process_phone_input envOk emptyDb udStart 111 "+123-4567").1
        = [Effect.send 111 .invalidPhone]
    ∧ providerCalls (process_phone_input envOk emptyDb udStart 111 "+123-4567").1 = [] := by decide

/-- Claim C7 (amended): a phone input is accepted exactly when, after stripping
    surrounding whitespace, it starts with '+' and the remainder with interior
    spaces (only) removed is a nonempty digit string — a dash anywhere causes
    rejection; a code input is accepted exactly when, after removing interior
    spaces, it is a nonempty digit string; malformed input is rejected locally
    with a reprompt (the code path restores its expecting flag) and never
    reaches the provider. -/
theorem c7_validation_amended (raw : String) (env : Env) (db : Db) (ud : UserData)
    (uid : Int) (cid : Nat) (ph : String) :
    ((strHeadIsPlus (pyStrip raw) && isdigitStr (removeSpaces (strTail (pyStrip raw)))) = true →
      Effect.codeRequest env.cid (removeDashes (removeSpaces (pyStrip raw)))
        ∈ (process_phone_input env db ud uid raw).1)
    ∧ ((strHeadIsPlus (pyStrip raw) && isdigitStr (removeSpaces (strTail (pyStrip raw)))) = false →
      (process_phone_input env db ud uid raw).1 = [Effect.send uid .invalidPhone])
    ∧ (isdigitStr (pyStrip (removeSpaces raw)) = false →
      (process_code_input env db ud uid raw).1 = [Effect.send uid .invalidCodeFormat]
      ∧ (process_code_input env db ud uid raw).2.1.expecting_code = true)
    ∧ (isdigitStr (pyStrip (removeSpaces raw)) = true → ud.temp_client = some cid →
        ud.phone = some ph →
      Effect.signInCode cid ph (pyStrip (removeSpaces raw))
        ∈ (process_code_input env db ud uid raw).1) := by
  refine ⟨?_, ?_, ?_, ?_⟩
  · intro h
    by_cases hs : env.sendCodeOk <;> simp [process_phone_input, h, hs]
  · intro h
    simp [process_phone_input, h]
  · intro h
    simp [process_code_input, h]
  · intro h h1 h2
    cases hsr : env.signInRes <;> by_cases ha : env.authorized <;>
      simp [process_code_input, h, h1, h2, hsr, ha]

/-- Claim C7 witness. -/
theorem c7_validation_amended_w :
    Effect.codeRequest envOk.cid (removeDashes (removeSpaces (pyStrip "+1 555 123 4567")))
      ∈ (process_phone_input envOk emptyDb udStart 111 "+1 555 123 4567").1
    ∧ ((process_code_input envOk emptyDb udStart 111 "abc12").1
        = [Effect.send 111 .invalidCodeFormat]
      ∧ (process_code_input envOk emptyDb udStart 111 "abc12").2.1.expecting_code = true) :=
  ⟨(c7_validation_amended "+1 555 123 4567" envOk emptyDb udStart 111 0 "x").1 (by decide),
   (c7_validation_amended "abc12" envOk emptyDb udStart 111 0 "x").2.2.1 (by decide)⟩

/- ===== Claim C8 ===== -/

def c8_db : Db := (save_session emptyDb true "SECRET_SESSION" "+15551234567" (some "Alice") 7).1

/-- Claim C8 counterexample: the artifact with payload "SECRET_SESSION" saved
    for creator 7 is in the store, and listByCreator(7) returns exactly the one
    matching row, yet no field of any returned row equals the payload: the
    listing projects only phoneNumber, accountLabel and createdAt, so the
    byte-identical payload never appears in a listByCreator result. -/
theorem c8_payload_not_listed_cex :
    (∃ r ∈ c8_db.sessions, r.session_string = "SECRET_SESSION" ∧ r.created_by = 7)
    ∧ (get_sessions c8_db 7).length = 1
    ∧ (get_sessions c8_db 7).all
        (fun row => !(decide (row.phone = "SECRET_SESSION")
          || decide (row.name = some "SECRET_SESSION"))) = true := by decide

/-- Claim C8 (amended): an artifact saved via ArtifactStore for a nonzero
    creator is persisted verbatim in the store, and its projection
    {phoneNumber, accountLabel, createdAt} appears (newest first) in a
    subsequent listByCreator call for that creator; the payload itself is not
    part of list results. -/
theorem c8_roundtrip_amended (db : Db) (payload phone : String) (name : Option String)
    (c : Int) (hc : c ≠ 0) :
    (save_session db true payload phone name c).2 = true
    ∧ (get_sessions (save_session db true payload phone name c).1 c).head?
        = some ⟨phone, name, db.sessions.length⟩
    ∧ ∃ r ∈ (save_session db true payload phone name c).1.sessions,
        r.session_string = payload ∧ r.phone_number = phone ∧ r.created_by = c := by
  refine ⟨rfl, ?_, ?_⟩
  · simp [save_session, get_sessions, hc, projRow, List.filter_append]
  · exact ⟨⟨db.sessions.length + 1, payload, phone, name, c, db.sessions.length⟩,
      by simp [save_session], rfl, rfl, rfl⟩

/-- Claim C8 witness. -/
theorem c8_roundtrip_amended_w :
    (save_session emptyDb true "PAYLOAD" "+15550001111" (some "Bob") 7).2 = true
    ∧ (get_sessions (save_session emptyDb true "PAYLOAD" "+15550001111" (some "Bob") 7).1 7).head?
        = some ⟨"+15550001111", some "Bob", emptyDb.sessions.length⟩
    ∧ ∃ r ∈ (save_session emptyDb true "PAYLOAD" "+15550001111" (some "Bob") 7).1.sessions,
        r.session_string = "PAYLOAD" ∧ r.phone_number = "+15550001111" ∧ r.created_by = 7 :=
  c8_roundtrip_amended emptyDb "PAYLOAD" "+15550001111" (some "Bob") 7 (by decide)

/- ===== Claim C9 ===== -/

def c9_run := complete_session_generation envSaveFail emptyDb udStart 111 0 "+15551234567"

/-- Claim C9 counterexample: an artifact is generated (payload "SESSIONSTR" was
    produced by the provider) by requester 111, but because the save fails no
    message at all is sent to the fixed privileged recipient: the relay does
    not run on every artifact generation, only after a successful save. -/
theorem c9_no_relay_on_save_fail_cex :
    c9_run.1.all (fun e => !(e.isSendToMainAdmin)) = true
    ∧ relaySends c9_run.1 = []
    ∧ sends c9_run.1 = [Effect.send 111 .saveFailed] := by decide

/-- Claim C9 (amended): on every artifact generation whose save succeeded, the
    relay sends exactly one copy of the artifact to the fixed privileged
    recipient — framed as a self-generated notice when the requester is the
    recipient, otherwise as a backup notice carrying the requester's identity
    and a timestamp — and a delivery failure is swallowed (no relay message, no
    retry) while the artifact is still shown to the requester. -/
theorem c9_relay_amended (env : Env) (db : Db) (ud : UserData) (uid : Int)
    (cid : Nat) (ph : String) (h : env.saveOk = true) :
    (uid ≠ MAIN_ADMIN_ID → env.backupOk = true →
      relaySends (complete_session_generation env db ud uid cid ph).1
        = [Effect.send MAIN_ADMIN_ID
            (.backupAlert (accountName env.meFirst env.meLast env.meUser) ph env.reqFirstName uid
              env.msgDate env.sessionString)])
    ∧ (uid = MAIN_ADMIN_ID → env.backupOk = true →
      relaySends (complete_session_generation env db ud uid cid ph).1
        = [Effect.send MAIN_ADMIN_ID
            (.selfBackup (accountName env.meFirst env.meLast env.meUser) ph
              env.msgDate env.sessionString)])
    ∧ (env.backupOk = false →
      relaySends (complete_session_generation env db ud uid cid ph).1 = [])
    ∧ Effect.send uid
        (.sessionSuccess (accountName env.meFirst env.meLast env.meUser) ph env.sessionString)
        ∈ (complete_session_generation env db ud uid cid ph).1 := by
  refine ⟨?_, ?_, ?_, ?_⟩
  · intro hm hb
    simp [complete_session_generation, save_session, h, hm, hb, relaySends,
      Effect.isRelaySend, MsgText.isRelayMsg]
  · intro hm hb
    simp [complete_session_generation, save_session, h, hm, hb, relaySends,
      Effect.isRelaySend, MsgText.isRelayMsg]
  · intro hb
    by_cases hm : uid = MAIN_ADMIN_ID <;>
      simp [complete_session_generation, save_session, h, hm, hb, relaySends,
        Effect.isRelaySend, MsgText.isRelayMsg]
  · by_cases hm : uid = MAIN_ADMIN_ID <;> by_cases hb : env.backupOk <;>
      simp [complete_session_generation, save_session, h, hm, hb]

/-- Claim C9 witness. -/
theorem c9_relay_amended_w :
    relaySends (complete_session_generation envOk emptyDb udStart 111 0 "+15551234567").1
      = [Effect.send MAIN_ADMIN_ID
          (.backupAlert (accountName envOk.meFirst envOk.meLast envOk.meUser) "+15551234567"
            envOk.reqFirstName 111 envOk.msgDate envOk.sessionString)] :=
  (c9_relay_amended envOk emptyDb udStart 111 0 "+15551234567" rfl).1 (by decide) rfl

/- ===== Claim C10 ===== -/

/-- Modelled from the spec claim: the literal filtered listByCreator reading,
    which applies the creator filter even for creator 0. -/
def listByCreatorLiteral (db : Db) (created_by : Int) : List SessionRow :=
  ((db.sessions.filter (fun r => decide (r.created_by = created_by))).reverse).map projRow

def c10_db : Db := (save_session emptyDb true "sess" "+15550001111" (some "Bob") 5).1

/-- Claim C10: calling get_sessions with creator 0 takes the unfiltered branch
    (Python truthiness), so it returns the listAll result; on a store holding
    one session created by principal 5, get_sessions 0 returns that session's
    row while the literal creator-0 filter would return the empty list. -/
theorem c10_zero_creator_lists_all :
    (∀ db : Db, get_sessions db 0 = get_sessions_all db)
    ∧ get_sessions c10_db 0 = [⟨"+15550001111", some "Bob", 0⟩]
    ∧ listByCreatorLiteral c10_db 0 = [] :=
  ⟨fun db => by simp [get_sessions], by decide, by decide⟩

end Tg2
